import Mathlib

/-!
Shallow embedding of the trusted-contacts subsystem of the wsa-backend
repository (src/app/routes/contacts.py), together with theorems checking
the natural-language specification against it.

The MongoDB collections `trusted_contacts` and `notifications` are
modelled as Lean lists kept in insertion order; `insert_one` appends,
`find` filters in order, `find_one` takes the first match, `update_one`
rewrites the first match and `delete_one` erases the first match.
Store-assigned object ids are modelled as naturals handed out by a
`next_id` counter.  Each call to `datetime.utcnow()` reads the current
value of a logical clock and advances it, so timestamps taken by later
calls are strictly larger.  A route handler is a pure function from the
database value to either an `HTTPError` (the `HTTPException` the handler
raises, with its status code and detail string) or a response paired
with the new database value; a raised error performs no write, exactly
as in the handlers, which raise before any mutating store call.
-/

namespace Wsa

/-- A stored trusted-contact document (fields of the dict built in
`create_contact`, with `_id` rendered as `id`). -/
structure Contact where
  id : Nat
  user_id : String
  name : String
  phone : String
  relationship : String
  is_verified : Bool
  created_at : Nat
  updated_at : Nat
deriving Repr, DecidableEq

/-- A stored notification document, as built in `notify_contact` and
`notify_all_contacts`.  Latitude and longitude are carried opaquely
(the handlers never inspect them), so an integer stands in for the
float payload. -/
structure Notification where
  contact_id : Nat
  user_id : String
  contact_name : String
  contact_phone : String
  message : String
  latitude : Option Int
  longitude : Option Int
  location_name : Option String
  sent_at : Nat
  status : String
deriving Repr, DecidableEq

/-- The database state: the two collections, the id counter of the
store, and the logical clock read by `datetime.utcnow()`. -/
structure DB where
  trusted_contacts : List Contact
  notifications : List Notification
  next_id : Nat
  clock : Nat
deriving Repr, DecidableEq

def emptyDB : DB := ⟨[], [], 0, 0⟩

/-- An `HTTPException` as raised by the handlers. -/
structure HTTPError where
  status_code : Nat
  detail : String
deriving Repr, DecidableEq

def invalidIdError : HTTPError := ⟨400, "Invalid contact ID format"⟩
def contactNotFoundError : HTTPError := ⟨404, "Contact not found"⟩
def limitExceededError : HTTPError := ⟨400, "Maximum of 5 trusted contacts allowed"⟩
def duplicatePhoneError : HTTPError := ⟨400, "Contact with this phone number already exists"⟩
def emptyUpdateError : HTTPError := ⟨400, "No fields to update"⟩
def noContactsError : HTTPError := ⟨404, "No trusted contacts found for this user"⟩

/-- An id string as received on the path: either well formed, in which
case `ObjectId(...)` yields the store-native id, or malformed, in which
case `ObjectId(...)` raises. -/
inductive RawId where
  | malformed (s : String)
  | valid (oid : Nat)
deriving Repr, DecidableEq

/-- Success status codes fixed by the route decorators. -/
def create_contact_status : Nat := 201
def delete_contact_status : Nat := 204
def verify_contact_status : Nat := 200
def notify_contact_status : Nat := 200
def notify_all_contacts_status : Nat := 200

/-- Body of POST `/contacts/` (TrustedContactCreate). -/
structure TrustedContactCreate where
  user_id : String
  name : String
  phone : String
  relationship : String
deriving Repr, DecidableEq

/-- Body of PUT `/contacts/\x7bcontact_id\x7d` (TrustedContactUpdate):
three optional fields; `none` means the field was not supplied
(`exclude_unset`). -/
structure TrustedContactUpdate where
  name : Option String
  phone : Option String
  relationship : Option String
deriving Repr, DecidableEq

/-- Model of `update_one` with a `$set` on the first matching document:
rewrites the first element satisfying `p` by `f`, leaves the rest. -/
def updateFirst (p : α → Bool) (f : α → α) : List α → List α
  | [] => []
  | x :: xs => if p x then f x :: xs else x :: updateFirst p f xs

/-- Model of `count_documents` on `trusted_contacts` filtered by `user_id`. -/
def countFor (l : List Contact) (u : String) : Nat :=
  (l.filter (fun t => t.user_id == u)).length

/-- GET `/contacts/user/\x7buser_id\x7d`: all contacts of the user, in
insertion order. -/
def get_user_contacts (db : DB) (user_id : String) : List Contact :=
  db.trusted_contacts.filter (fun t => t.user_id == user_id)

/-- GET `/contacts/\x7bcontact_id\x7d`.  The `try` block of the handler
wraps both `ObjectId(contact_id)` and the `find_one` store call, and the
bare `except` turns any exception from either into the 400
"Invalid contact ID format" response; `storeFails` says whether the
`find_one` call raises (store-connectivity failure). -/
def get_contact (db : DB) (raw : RawId) (storeFails : Bool) :
    Except HTTPError Contact :=
  match raw with
  | .malformed _ => .error invalidIdError
  | .valid oid =>
    if storeFails then
      .error invalidIdError
    else
      match db.trusted_contacts.find? (fun t => t.id == oid) with
      | none => .error contactNotFoundError
      | some c => .ok c

/-- POST `/contacts/`: count check, duplicate-phone check, insert. -/
def create_contact (db : DB) (c : TrustedContactCreate) :
    Except HTTPError (Contact × DB) :=
  if 5 ≤ countFor db.trusted_contacts c.user_id then
    .error limitExceededError
  else if (db.trusted_contacts.find?
      (fun t => t.user_id == c.user_id && t.phone == c.phone)).isSome then
    .error duplicatePhoneError
  else
    let now := db.clock
    let newContact : Contact :=
      ⟨db.next_id, c.user_id, c.name, c.phone, c.relationship, false, now, now⟩
    .ok (newContact,
      { db with trusted_contacts := db.trusted_contacts ++ [newContact],
                next_id := db.next_id + 1,
                clock := db.clock + 1 })

/-- The `$set` document of `update_contact`: the supplied fields plus a
refreshed `updated_at`, applied to the stored document. -/
def applyUpdate (u : TrustedContactUpdate) (now : Nat) (t : Contact) : Contact :=
  { t with name := u.name.getD t.name,
           phone := u.phone.getD t.phone,
           relationship := u.relationship.getD t.relationship,
           updated_at := now }

/-- The conditional duplicate-phone check of `update_contact`: fires
iff `phone` is among the supplied fields, differs from the stored one,
and another contact of the same user (a different id) holds it. -/
def updateDupFound (db : DB) (oid : Nat) (existing : Contact)
    (u : TrustedContactUpdate) : Bool :=
  match u.phone with
  | some p =>
    p != existing.phone &&
      (db.trusted_contacts.find? (fun t =>
        t.user_id == existing.user_id && t.phone == p && t.id != oid)).isSome
  | none => false

/-- PUT `/contacts/\x7bcontact_id\x7d`: fetch, empty-payload check,
conditional duplicate-phone check, `$set` of the supplied fields with a
refreshed `updated_at`, and return of the re-fetched document. -/
def update_contact (db : DB) (raw : RawId) (u : TrustedContactUpdate) :
    Except HTTPError (Contact × DB) :=
  match raw with
  | .malformed _ => .error invalidIdError
  | .valid oid =>
    match db.trusted_contacts.find? (fun t => t.id == oid) with
    | none => .error contactNotFoundError
    | some existing =>
      if u.name == none && u.phone == none && u.relationship == none then
        .error emptyUpdateError
      else if updateDupFound db oid existing u then
        .error duplicatePhoneError
      else
        let newContacts := updateFirst (fun t => t.id == oid)
          (applyUpdate u db.clock) db.trusted_contacts
        .ok (applyUpdate u db.clock existing,
          { db with trusted_contacts := newContacts, clock := db.clock + 1 })

/-- DELETE `/contacts/\x7bcontact_id\x7d`: `delete_one` erases the
first matching document; 404 when `deleted_count` is zero, otherwise a
body-less 204. -/
def delete_contact (db : DB) (raw : RawId) : Except HTTPError DB :=
  match raw with
  | .malformed _ => .error invalidIdError
  | .valid oid =>
    match db.trusted_contacts.find? (fun t => t.id == oid) with
    | none => .error contactNotFoundError
    | some _ =>
      let newContacts := db.trusted_contacts.eraseP (fun t => t.id == oid)
      .ok { db with trusted_contacts := newContacts }

/-- Response of POST `/contacts/\x7bcontact_id\x7d/verify`. -/
structure VerifyResponse where
  message : String
  verified : Bool
deriving Repr, DecidableEq

/-- POST `/contacts/\x7bcontact_id\x7d/verify`: `update_one` setting
`is_verified` to true and refreshing `updated_at`; 404 when
`matched_count` is zero. -/
def verify_contact (db : DB) (raw : RawId) :
    Except HTTPError (VerifyResponse × DB) :=
  match raw with
  | .malformed _ => .error invalidIdError
  | .valid oid =>
    let newContacts := updateFirst (fun t => t.id == oid)
      (fun t => { t with is_verified := true, updated_at := db.clock })
      db.trusted_contacts
    if (db.trusted_contacts.find? (fun t => t.id == oid)).isSome then
      .ok (⟨"Test alert sent successfully", true⟩,
        { db with trusted_contacts := newContacts, clock := db.clock + 1 })
    else
      .error contactNotFoundError

/-- Body of POST `/contacts/notify` (NotifyContactRequest). -/
structure NotifyContactRequest where
  contact_id : RawId
  message : String
  latitude : Option Int
  longitude : Option Int
  location_name : Option String
deriving Repr, DecidableEq

/-- Response of POST `/contacts/notify`. -/
structure NotifyResponse where
  message : String
  contact_name : String
  contact_phone : String
  sent_at : Nat
deriving Repr, DecidableEq

/-- POST `/contacts/notify`: fetch the contact, persist one
notification snapshotting its current name and phone, return the
snapshot and the send time; the contact document is not written. -/
def notify_contact (db : DB) (req : NotifyContactRequest) :
    Except HTTPError (NotifyResponse × DB) :=
  match req.contact_id with
  | .malformed _ => .error invalidIdError
  | .valid oid =>
    match db.trusted_contacts.find? (fun t => t.id == oid) with
    | none => .error contactNotFoundError
    | some contact =>
      let notification : Notification :=
        ⟨oid, contact.user_id, contact.name, contact.phone, req.message,
          req.latitude, req.longitude, req.location_name, db.clock, "sent"⟩
      .ok (⟨"Emergency alert sent successfully", contact.name, contact.phone,
            notification.sent_at⟩,
        { db with notifications := db.notifications ++ [notification],
                  clock := db.clock + 1 })

/-- Body of POST `/contacts/notify-all/\x7buser_id\x7d`. -/
structure NotifyAllRequest where
  message : String
  latitude : Option Int
  longitude : Option Int
  location_name : Option String
deriving Repr, DecidableEq

/-- Response of POST `/contacts/notify-all/\x7buser_id\x7d`. -/
structure NotifyAllResponse where
  message : String
  contacts : List (String × String)
  sent_at : Nat
deriving Repr, DecidableEq

/-- The per-contact loop of `notify_all_contacts`: for each contact in
list order, build a notification at the current clock (one `utcnow`
call per iteration) and record the name and phone pair; returns the
notifications, the pairs, and the clock after the loop. -/
def notify_all_loop (user_id : String) (req : NotifyAllRequest) :
    List Contact → Nat → List Notification × List (String × String) × Nat
  | [], clock => ([], [], clock)
  | c :: rest, clock =>
    let n : Notification :=
      ⟨c.id, user_id, c.name, c.phone, req.message,
        req.latitude, req.longitude, req.location_name, clock, "sent"⟩
    let r := notify_all_loop user_id req rest (clock + 1)
    (n :: r.1, (c.name, c.phone) :: r.2.1, r.2.2)

/-- POST `/contacts/notify-all/\x7buser_id\x7d`: list the contacts of
the user, 404 when there are none, otherwise persist one notification
per contact in list order and answer with the pairs sent and a final
`utcnow` timestamp. -/
def notify_all_contacts (db : DB) (user_id : String) (req : NotifyAllRequest) :
    Except HTTPError (NotifyAllResponse × DB) :=
  let contacts := db.trusted_contacts.filter (fun t => t.user_id == user_id)
  if contacts.isEmpty then
    .error noContactsError
  else
    let r := notify_all_loop user_id req contacts db.clock
    .ok (⟨"Emergency alert sent to " ++ toString r.2.1.length ++ " contact(s)",
          r.2.1, r.2.2⟩,
      { db with notifications := db.notifications ++ r.1,
                clock := r.2.2 + 1 })

/-- One request against the contacts router, for reasoning about
sequences of operations. -/
inductive Op where
  | create (c : TrustedContactCreate)
  | update (raw : RawId) (u : TrustedContactUpdate)
  | delete (raw : RawId)
  | verify (raw : RawId)
deriving Repr, DecidableEq

/-- Run one operation; a failing operation leaves the database as it
was (the handler raises before any write). -/
def stepOp (db : DB) : Op → DB
  | .create c =>
    match create_contact db c with
    | .ok r => r.2
    | .error _ => db
  | .update raw u =>
    match update_contact db raw u with
    | .ok r => r.2
    | .error _ => db
  | .delete raw =>
    match delete_contact db raw with
    | .ok db2 => db2
    | .error _ => db
  | .verify raw =>
    match verify_contact db raw with
    | .ok r => r.2
    | .error _ => db

/-- Run a sequence of operations from a database state. -/
def runOps (db : DB) : List Op → DB
  | [] => db
  | op :: rest => runOps (stepOp db op) rest

/-- The pairwise relation of the phone-uniqueness invariant: two
contacts of one user never carry the same phone. -/
def PhoneOkRel (a b : Contact) : Prop :=
  a.user_id = b.user_id → a.phone ≠ b.phone

/-- Phone uniqueness of a whole collection. -/
def PhoneOk (l : List Contact) : Prop :=
  l.Pairwise PhoneOkRel

theorem phoneOkRel_symm : Symmetric PhoneOkRel :=
  fun _ _ h he hp => h he.symm hp.symm

theorem mem_updateFirst {p : α → Bool} {f : α → α} {b : α} :
    ∀ {l : List α}, b ∈ updateFirst p f l →
      b ∈ l ∨ ∃ x, x ∈ l ∧ p x = true ∧ b = f x := by
  intro l
  induction l with
  | nil => intro h; exact absurd h (List.not_mem_nil b)
  | cons a l ih =>
    simp only [updateFirst]
    cases hp : p a with
    | true =>
      simp only [if_pos]
      intro hb
      rcases List.mem_cons.mp hb with hb | hb
      · exact Or.inr ⟨a, List.mem_cons_self a l, hp, hb⟩
      · exact Or.inl (List.mem_cons_of_mem a hb)
    | false =>
      simp only [Bool.false_eq_true, if_neg, not_false_eq_true]
      intro hb
      rcases List.mem_cons.mp hb with hb | hb
      · exact Or.inl (hb ▸ List.mem_cons_self a l)
      · rcases ih hb with hb | ⟨x, hx, hpx, hfx⟩
        · exact Or.inl (List.mem_cons_of_mem a hb)
        · exact Or.inr ⟨x, List.mem_cons_of_mem a hx, hpx, hfx⟩

theorem find?_updateFirst {p : α → Bool} {f : α → α} {x : α} :
    ∀ {l : List α}, l.find? p = some x → p (f x) = true →
      (updateFirst p f l).find? p = some (f x) := by
  intro l
  induction l with
  | nil => intro h; simp at h
  | cons a l ih =>
    intro h hfx
    simp only [updateFirst]
    cases hp : p a with
    | true =>
      rw [List.find?_cons_of_pos _ hp] at h
      have hax : a = x := Option.some.inj h
      simp only [if_pos]
      rw [hax]
      exact List.find?_cons_of_pos _ hfx
    | false =>
      rw [List.find?_cons_of_neg _ (by simp [hp])] at h
      simp only [Bool.false_eq_true, if_neg, not_false_eq_true]
      rw [List.find?_cons_of_neg _ (by simp [hp])]
      exact ih h hfx

theorem map_updateFirst {β : Type} (p : α → Bool) (f : α → α) (g : α → β)
    (hg : ∀ x, p x = true → g (f x) = g x) :
    ∀ l : List α, (updateFirst p f l).map g = l.map g := by
  intro l
  induction l with
  | nil => rfl
  | cons a l ih =>
    simp only [updateFirst]
    cases hp : p a with
    | true => simp [List.map_cons, hg a hp]
    | false => simp [List.map_cons, ih]

theorem countFor_updateFirst (p : Contact → Bool) (f : Contact → Contact)
    (u : String) (h : ∀ x, p x = true → (f x).user_id = x.user_id) :
    ∀ l : List Contact, countFor (updateFirst p f l) u = countFor l u := by
  intro l
  induction l with
  | nil => rfl
  | cons a l ih =>
    simp only [updateFirst]
    cases hp : p a with
    | true =>
      simp only [if_pos, countFor, List.filter_cons, h a hp]
      split <;> simp
    | false =>
      simp only [Bool.false_eq_true, if_neg, not_false_eq_true,
        countFor, List.filter_cons] at ih ⊢
      split <;> simp [ih]

theorem PhoneOk_updateFirst_preserve (p : Contact → Bool) (f : Contact → Contact)
    (h : ∀ x, p x = true → (f x).user_id = x.user_id ∧ (f x).phone = x.phone) :
    ∀ l : List Contact, PhoneOk l → PhoneOk (updateFirst p f l) := by
  intro l
  induction l with
  | nil => exact fun h => h
  | cons a l ih =>
    intro hOk
    rcases List.pairwise_cons.mp hOk with ⟨ha, hl⟩
    simp only [updateFirst]
    cases hp : p a with
    | true =>
      simp only [if_pos]
      refine List.pairwise_cons.mpr ⟨?_, hl⟩
      intro b hb he
      rcases h a hp with ⟨h1, h2⟩
      rw [h1] at he
      rw [h2]
      exact ha b hb he
    | false =>
      simp only [Bool.false_eq_true, if_neg, not_false_eq_true]
      refine List.pairwise_cons.mpr ⟨?_, ih hl⟩
      intro b hb
      rcases mem_updateFirst hb with hbl | ⟨x, hx, hpx, rfl⟩
      · exact ha b hbl
      · rcases h x hpx with ⟨h1, h2⟩
        intro he
        rw [h1] at he
        rw [h2]
        exact ha x hx he

/-- Uniqueness of documents from uniqueness of the store-assigned
ids. -/
theorem uniq_of_nodup_ids :
    ∀ l : List Contact, (l.map (fun t => t.id)).Nodup →
      ∀ x0 ∈ l, ∀ x ∈ l, x.id = x0.id → x = x0 := by
  intro l
  induction l with
  | nil => intro _ x0 h; exact absurd h (List.not_mem_nil x0)
  | cons a l ih =>
    intro hnd x0 hx0 x hx hid
    rw [List.map_cons, List.nodup_cons] at hnd
    rcases hnd with ⟨hna, hnd⟩
    rcases List.mem_cons.mp hx0 with h0 | h0 <;>
      rcases List.mem_cons.mp hx with h1 | h1
    · rw [h0, h1]
    · exfalso
      apply hna
      have hm : x.id ∈ l.map (fun t => t.id) :=
        List.mem_map_of_mem (fun t => t.id) h1
      rwa [hid, h0] at hm
    · exfalso
      apply hna
      have hm : x0.id ∈ l.map (fun t => t.id) :=
        List.mem_map_of_mem (fun t => t.id) h0
      rwa [← hid, h1] at hm
    · exact ih hnd x0 h0 x h1 hid

/-- Phone uniqueness survives rewriting the document `x0` when every
other contact of the same user carries a phone different from the new
one. -/
theorem PhoneOk_updateFirst_newPhone (f : Contact → Contact) (x0 : Contact)
    (hfu : (f x0).user_id = x0.user_id) :
    ∀ l : List Contact, PhoneOk l →
      (∀ x ∈ l, x.id = x0.id → x = x0) →
      (∀ b ∈ l, b.id ≠ x0.id → b.user_id = x0.user_id → b.phone ≠ (f x0).phone) →
      PhoneOk (updateFirst (fun t => t.id == x0.id) f l) := by
  intro l
  induction l with
  | nil => intro h _ _; exact h
  | cons a l ih =>
    intro hOk huniq hdup
    rcases List.pairwise_cons.mp hOk with ⟨ha, hl⟩
    simp only [updateFirst]
    by_cases hpid : a.id = x0.id
    case pos =>
      have hp : (a.id == x0.id) = true := by simpa using hpid
      rw [if_pos hp]
      have ha0 : a = x0 := huniq a (List.mem_cons_self a l) hpid
      refine List.pairwise_cons.mpr ⟨?_, hl⟩
      intro b hb he
      by_cases hbid : b.id = x0.id
      · have hb0 : b = x0 := huniq b (List.mem_cons_of_mem a hb) hbid
        have : PhoneOkRel a b := ha b hb
        rw [ha0, hb0] at this
        exact absurd (this rfl) (fun h => h rfl)
      · have hbu : b.user_id = x0.user_id := by rw [← he, ha0, hfu]
        intro hph
        exact hdup b (List.mem_cons_of_mem a hb) hbid hbu (ha0 ▸ hph.symm)
    case neg =>
      have hp : ¬((a.id == x0.id) = true) := by simpa using hpid
      rw [if_neg hp]
      have haid : a.id ≠ x0.id := hpid
      refine List.pairwise_cons.mpr ⟨?_, ?_⟩
      · intro b hb
        rcases mem_updateFirst hb with hbl | ⟨x, hx, hpx, rfl⟩
        · exact ha b hbl
        · have hx0 : x = x0 :=
            huniq x (List.mem_cons_of_mem a hx) (by simpa using hpx)
          intro he
          have hau : a.user_id = x0.user_id := by rw [he, hx0, hfu]
          have hd := hdup a (List.mem_cons_self a l) haid hau
          rw [← hx0] at hd
          exact hd
      · exact ih hl
          (fun x hx => huniq x (List.mem_cons_of_mem a hx))
          (fun b hb => hdup b (List.mem_cons_of_mem a hb))

/-- Well-formedness of the store-assigned ids: no two documents share
an id, and every id is below the id counter. -/
def IdsOk (db : DB) : Prop :=
  (db.trusted_contacts.map (fun t => t.id)).Nodup ∧
    ∀ t ∈ db.trusted_contacts, t.id < db.next_id

/-- The reachable-state invariant of the trusted-contact collection. -/
def Inv (db : DB) : Prop :=
  (∀ u, countFor db.trusted_contacts u ≤ 5) ∧
    IdsOk db ∧ PhoneOk db.trusted_contacts

theorem inv_emptyDB : Inv emptyDB := by
  refine ⟨fun u => ?_, ⟨?_, ?_⟩, ?_⟩ <;>
    simp [emptyDB, countFor, PhoneOk, IdsOk]

theorem countFor_append (l : List Contact) (c : Contact) (u : String) :
    countFor (l ++ [c]) u =
      countFor l u + (if c.user_id == u then 1 else 0) := by
  simp only [countFor, List.filter_append, List.filter_cons,
    List.filter_nil, List.length_append]
  split <;> simp

theorem inv_create (db : DB) (c : TrustedContactCreate) (h : Inv db)
    (x : Contact) (db2 : DB) (hc : create_contact db c = .ok (x, db2)) :
    Inv db2 := by
  unfold create_contact at hc
  split at hc
  case isTrue => exact absurd hc (by simp)
  case isFalse h5 =>
    split at hc
    case isTrue => exact absurd hc (by simp)
    case isFalse hdup =>
      simp only [Except.ok.injEq, Prod.mk.injEq] at hc
      obtain ⟨hx, hdb⟩ := hc
      subst hdb
      have hnone := Option.not_isSome_iff_eq_none.mp hdup
      have hall := List.find?_eq_none.mp hnone
      refine ⟨fun u => ?_, ⟨?_, ?_⟩, ?_⟩
      · rw [countFor_append]
        by_cases he : c.user_id = u
        · subst he
          have h5' : countFor db.trusted_contacts c.user_id < 5 :=
            Nat.lt_of_not_le h5
          have hite : (if (c.user_id == c.user_id) = true then 1 else 0) = 1 := by
            simp
          rw [hite]
          omega
        · rw [if_neg (by simpa using he)]
          simpa using h.1 u
      · simp only [List.map_append, List.map_cons, List.map_nil]
        rw [List.nodup_append]
        refine ⟨h.2.1.1, List.nodup_singleton _, ?_⟩
        intro a hal har
        rcases List.mem_map.mp hal with ⟨t, ht, hta⟩
        have hlt := h.2.1.2 t ht
        simp only [List.mem_singleton] at har
        omega
      · intro t ht
        rcases List.mem_append.mp ht with ht | ht
        · exact Nat.lt_succ_of_lt (h.2.1.2 t ht)
        · simp only [List.mem_singleton] at ht
          subst ht
          exact Nat.lt_succ_self _
      · rw [PhoneOk, List.pairwise_append]
        refine ⟨h.2.2, List.pairwise_singleton _ _, ?_⟩
        intro a hal b hbr
        simp only [List.mem_singleton] at hbr
        subst hbr
        intro he hp
        have := hall a hal
        simp only [Bool.and_eq_true, beq_iff_eq, not_and] at this
        exact this he hp

theorem inv_update (db : DB) (raw : RawId) (uu : TrustedContactUpdate)
    (h : Inv db) (x : Contact) (db2 : DB)
    (hc : update_contact db raw uu = .ok (x, db2)) : Inv db2 := by
  unfold update_contact at hc
  cases raw with
  | malformed s => simp at hc
  | valid oid =>
    simp only at hc
    cases hfind : db.trusted_contacts.find? (fun t => t.id == oid) with
    | none => rw [hfind] at hc; simp at hc
    | some existing =>
      rw [hfind] at hc
      simp only at hc
      split at hc
      case isTrue => exact absurd hc (by simp)
      case isFalse hempty =>
        split at hc
        case isTrue => exact absurd hc (by simp)
        case isFalse hdupF =>
          simp only [Except.ok.injEq, Prod.mk.injEq] at hc
          obtain ⟨hx, hdb⟩ := hc
          subst hdb
          have heid : existing.id = oid := by
            simpa using List.find?_some hfind
          have hmem : existing ∈ db.trusted_contacts :=
            List.mem_of_find?_eq_some hfind
          refine ⟨fun u => ?_, ⟨?_, ?_⟩, ?_⟩
          · show countFor (updateFirst (fun t => t.id == oid)
              (applyUpdate uu db.clock) db.trusted_contacts) u ≤ 5
            rw [countFor_updateFirst (fun t => t.id == oid)
              (applyUpdate uu db.clock) u (fun t _ => rfl)
              db.trusted_contacts]
            exact h.1 u
          · show ((updateFirst (fun t => t.id == oid)
              (applyUpdate uu db.clock) db.trusted_contacts).map
                (fun t => t.id)).Nodup
            rw [map_updateFirst (fun t => t.id == oid)
              (applyUpdate uu db.clock) (fun t => t.id)
              (fun t _ => rfl) db.trusted_contacts]
            exact h.2.1.1
          · intro t ht
            rcases mem_updateFirst ht with ht | ⟨y, hy, _, rfl⟩
            · exact h.2.1.2 t ht
            · exact h.2.1.2 y hy
          · show PhoneOk (updateFirst (fun t => t.id == oid)
              (applyUpdate uu db.clock) db.trusted_contacts)
            have hpred : (fun (t : Contact) => t.id == oid) =
                (fun (t : Contact) => t.id == existing.id) := by
              funext t; rw [heid]
            rw [hpred]
            apply PhoneOk_updateFirst_newPhone (applyUpdate uu db.clock)
              existing rfl db.trusted_contacts h.2.2
            · exact uniq_of_nodup_ids db.trusted_contacts h.2.1.1
                existing hmem
            · intro b hb hbid hbu
              have hbne : b ≠ existing := fun he => hbid (he ▸ rfl)
              have hother : b.phone ≠ existing.phone :=
                (List.Pairwise.forall phoneOkRel_symm h.2.2 hb hmem hbne) hbu
              cases hph : uu.phone with
              | none => simpa [applyUpdate, hph] using hother
              | some p =>
                by_cases hpe : p = existing.phone
                · subst hpe
                  simpa [applyUpdate, hph] using hother
                · unfold updateDupFound at hdupF
                  rw [hph] at hdupF
                  simp only [bne_iff_ne, ne_eq, Bool.and_eq_true,
                    decide_eq_true_eq, not_and] at hdupF
                  have hnone := Option.not_isSome_iff_eq_none.mp
                    (hdupF hpe)
                  have hall := List.find?_eq_none.mp hnone b hb
                  intro hph2
                  simp only [applyUpdate, hph, Option.getD_some] at hph2
                  have hne2 : b.id ≠ oid := heid ▸ hbid
                  exact hall (by simp [hbu, hph2, hne2])

theorem inv_delete (db : DB) (raw : RawId) (h : Inv db) (db2 : DB)
    (hc : delete_contact db raw = .ok db2) : Inv db2 := by
  unfold delete_contact at hc
  cases raw with
  | malformed s => simp at hc
  | valid oid =>
    simp only at hc
    cases hfind : db.trusted_contacts.find? (fun t => t.id == oid) with
    | none => rw [hfind] at hc; simp at hc
    | some existing =>
      rw [hfind] at hc
      simp only [Except.ok.injEq] at hc
      subst hc
      have hsub : List.Sublist
          (db.trusted_contacts.eraseP (fun t => t.id == oid))
          db.trusted_contacts := List.eraseP_sublist _
      refine ⟨fun u => ?_, ⟨?_, ?_⟩, ?_⟩
      · exact Nat.le_trans ((hsub.filter _).length_le) (h.1 u)
      · exact h.2.1.1.sublist (hsub.map _)
      · intro t ht
        exact h.2.1.2 t (List.mem_of_mem_eraseP ht)
      · exact h.2.2.sublist hsub

theorem inv_verify (db : DB) (raw : RawId) (h : Inv db)
    (r : VerifyResponse) (db2 : DB)
    (hc : verify_contact db raw = .ok (r, db2)) : Inv db2 := by
  unfold verify_contact at hc
  cases raw with
  | malformed s => simp at hc
  | valid oid =>
    simp only at hc
    split at hc
    case isFalse => exact absurd hc (by simp)
    case isTrue hfind =>
      simp only [Except.ok.injEq, Prod.mk.injEq] at hc
      obtain ⟨hr, hdb⟩ := hc
      subst hdb
      refine ⟨fun u => ?_, ⟨?_, ?_⟩, ?_⟩
      · show countFor (updateFirst (fun t => t.id == oid)
          (fun t => { t with is_verified := true, updated_at := db.clock })
          db.trusted_contacts) u ≤ 5
        rw [countFor_updateFirst (fun t => t.id == oid)
          (fun t => { t with is_verified := true, updated_at := db.clock })
          u (fun t _ => rfl) db.trusted_contacts]
        exact h.1 u
      · show ((updateFirst (fun t => t.id == oid)
          (fun t => { t with is_verified := true, updated_at := db.clock })
          db.trusted_contacts).map (fun t => t.id)).Nodup
        rw [map_updateFirst (fun t => t.id == oid)
          (fun t => { t with is_verified := true, updated_at := db.clock })
          (fun t => t.id) (fun t _ => rfl) db.trusted_contacts]
        exact h.2.1.1
      · intro t ht
        rcases mem_updateFirst ht with ht | ⟨y, hy, _, rfl⟩
        · exact h.2.1.2 t ht
        · exact h.2.1.2 y hy
      · show PhoneOk (updateFirst (fun t => t.id == oid)
          (fun t => { t with is_verified := true, updated_at := db.clock })
          db.trusted_contacts)
        exact PhoneOk_updateFirst_preserve (fun t => t.id == oid)
          (fun t => { t with is_verified := true, updated_at := db.clock })
          (fun t _ => ⟨rfl, rfl⟩) db.trusted_contacts h.2.2

theorem inv_stepOp (db : DB) (op : Op) (h : Inv db) : Inv (stepOp db op) := by
  cases op with
  | create c =>
    simp only [stepOp]
    cases hc : create_contact db c with
    | error e => exact h
    | ok r =>
      obtain ⟨x, db2⟩ := r
      exact inv_create db c h x db2 hc
  | update raw uu =>
    simp only [stepOp]
    cases hc : update_contact db raw uu with
    | error e => exact h
    | ok r =>
      obtain ⟨x, db2⟩ := r
      exact inv_update db raw uu h x db2 hc
  | delete raw =>
    simp only [stepOp]
    cases hc : delete_contact db raw with
    | error e => exact h
    | ok db2 => exact inv_delete db raw h db2 hc
  | verify raw =>
    simp only [stepOp]
    cases hc : verify_contact db raw with
    | error e => exact h
    | ok r =>
      obtain ⟨x, db2⟩ := r
      exact inv_verify db raw h x db2 hc

theorem inv_runOps (db : DB) (h : Inv db) :
    ∀ ops : List Op, Inv (runOps db ops)
  | [] => h
  | op :: rest => inv_runOps (stepOp db op) (inv_stepOp db op h) rest

/-! Concrete fixtures used by the witnesses. -/

def reqMom : TrustedContactCreate := ⟨"u1", "Mom", "5551234567", "parent"⟩

def reqDad : TrustedContactCreate := ⟨"u1", "Dad", "5559876543", "parent"⟩

def cMom : Contact := ⟨0, "u1", "Mom", "5551234567", "parent", false, 0, 0⟩

def cDad : Contact := ⟨1, "u1", "Dad", "5559876543", "parent", false, 1, 1⟩

def dbTwo : DB := ⟨[cMom, cDad], [], 2, 2⟩

def opsTwo : List Op := [Op.create reqMom, Op.create reqDad]

def dbFive : DB :=
  ⟨[⟨0, "u1", "A", "5550000000", "friend", false, 0, 0⟩,
    ⟨1, "u1", "B", "5550000001", "friend", false, 1, 1⟩,
    ⟨2, "u1", "C", "5550000002", "friend", false, 2, 2⟩,
    ⟨3, "u1", "D", "5550000003", "friend", false, 3, 3⟩,
    ⟨4, "u1", "E", "5550000004", "friend", false, 4, 4⟩], [], 5, 5⟩

/-- C1: starting from the empty store, after every sequence of Create,
Update, Delete and Verify operations (a failing call leaves the store
untouched), every user owns at most 5 contacts, and no two distinct
contacts of one user carry the same phone. -/
theorem C1_store_invariants (ops : List Op) (u : String) :
    countFor (runOps emptyDB ops).trusted_contacts u ≤ 5 ∧
    ∀ a ∈ (runOps emptyDB ops).trusted_contacts,
      ∀ b ∈ (runOps emptyDB ops).trusted_contacts,
        a ≠ b → a.user_id = b.user_id → a.phone ≠ b.phone := by
  have hinv := inv_runOps emptyDB inv_emptyDB ops
  refine ⟨hinv.1 u, ?_⟩
  intro a ha b hb hne
  exact List.Pairwise.forall phoneOkRel_symm hinv.2.2 ha hb hne

theorem C1_store_invariants_witness :
    countFor (runOps emptyDB opsTwo).trusted_contacts "u1" ≤ 5 ∧
      (cMom.user_id = cDad.user_id → cMom.phone ≠ cDad.phone) :=
  ⟨(C1_store_invariants opsTwo "u1").1,
   (C1_store_invariants opsTwo "u1").2 cMom (by decide) cDad (by decide)
     (by decide)⟩

/-- C2: a Create request fails with the limit error when the user
already owns 5 or more contacts, fails with the duplicate error when a
contact of the same user and phone exists, and otherwise appends
exactly the one new contact, unverified, with equal creation and
update timestamps, and returns it.  A failing request returns an error
and no store state, so nothing is persisted. -/
theorem C2_create_contact (db : DB) (c : TrustedContactCreate) :
    (5 ≤ countFor db.trusted_contacts c.user_id →
      create_contact db c = .error limitExceededError) ∧
    (countFor db.trusted_contacts c.user_id < 5 →
      (∃ t ∈ db.trusted_contacts,
        t.user_id = c.user_id ∧ t.phone = c.phone) →
      create_contact db c = .error duplicatePhoneError) ∧
    (countFor db.trusted_contacts c.user_id < 5 →
      (∀ t ∈ db.trusted_contacts,
        ¬(t.user_id = c.user_id ∧ t.phone = c.phone)) →
      ∃ nc db2, create_contact db c = .ok (nc, db2) ∧
        db2.trusted_contacts = db.trusted_contacts ++ [nc] ∧
        db2.notifications = db.notifications ∧
        nc.user_id = c.user_id ∧ nc.name = c.name ∧ nc.phone = c.phone ∧
        nc.relationship = c.relationship ∧ nc.is_verified = false ∧
        nc.created_at = nc.updated_at) := by
  refine ⟨?_, ?_, ?_⟩
  · intro h5
    unfold create_contact
    rw [if_pos h5]
  · rintro h5 ⟨t, ht, htu, htp⟩
    unfold create_contact
    rw [if_neg (by omega)]
    have hsome : (db.trusted_contacts.find? (fun t =>
        t.user_id == c.user_id && t.phone == c.phone)).isSome = true := by
      rw [List.find?_isSome]
      exact ⟨t, ht, by simp [htu, htp]⟩
    rw [if_pos hsome]
  · intro h5 hall
    unfold create_contact
    rw [if_neg (by omega)]
    have hnone : (db.trusted_contacts.find? (fun t =>
        t.user_id == c.user_id && t.phone == c.phone)) = none := by
      rw [List.find?_eq_none]
      intro t ht
      simp only [Bool.and_eq_true, beq_iff_eq]
      exact hall t ht
    have hnotsome : ¬((db.trusted_contacts.find? (fun t =>
        t.user_id == c.user_id && t.phone == c.phone)).isSome = true) := by
      rw [hnone]; simp
    rw [if_neg hnotsome]
    exact ⟨_, _, rfl, rfl, rfl, rfl, rfl, rfl, rfl, rfl, rfl⟩

theorem C2_create_contact_witness :
    (create_contact dbFive reqMom = .error limitExceededError) ∧
    (create_contact dbTwo ⟨"u1", "Mia", "5551234567", "sister"⟩ =
      .error duplicatePhoneError) ∧
    (∃ nc db2,
      create_contact dbTwo ⟨"u1", "Mia", "5551230000", "sister"⟩ =
        .ok (nc, db2) ∧
      db2.trusted_contacts = dbTwo.trusted_contacts ++ [nc] ∧
      db2.notifications = dbTwo.notifications ∧
      nc.user_id = "u1" ∧ nc.name = "Mia" ∧ nc.phone = "5551230000" ∧
      nc.relationship = "sister" ∧ nc.is_verified = false ∧
      nc.created_at = nc.updated_at) :=
  ⟨(C2_create_contact dbFive reqMom).1 (by decide),
   (C2_create_contact dbTwo ⟨"u1", "Mia", "5551234567", "sister"⟩).2.1
     (by decide) ⟨cMom, by decide, by decide, by decide⟩,
   (C2_create_contact dbTwo ⟨"u1", "Mia", "5551230000", "sister"⟩).2.2
     (by decide) (by decide)⟩

/-- C3: in GetById the bare except of the handler also catches a
failure of the `find_one` store read, so a store-connectivity failure
on a well-formed id is answered with the InvalidIdentifier response
(400, "Invalid contact ID format") instead of propagating as a generic
server error; the code contradicts the specified error design. -/
theorem C3_get_contact_store_failure_mapped :
    get_contact dbTwo (RawId.valid 0) true = .error invalidIdError ∧
    get_contact dbTwo (RawId.valid 0) false = .ok cMom :=
  ⟨rfl, rfl⟩

theorem notify_all_loop_spec (u : String) (req : NotifyAllRequest) :
    ∀ (cs : List Contact) (clock : Nat),
      (notify_all_loop u req cs clock).1.map
          (fun n => (n.contact_name, n.contact_phone)) =
        cs.map (fun c => (c.name, c.phone)) ∧
      (notify_all_loop u req cs clock).2.1 =
        cs.map (fun c => (c.name, c.phone)) ∧
      (notify_all_loop u req cs clock).2.2 = clock + cs.length ∧
      ∀ n ∈ (notify_all_loop u req cs clock).1,
        n.status = "sent" ∧ n.sent_at < clock + cs.length := by
  intro cs
  induction cs with
  | nil =>
    intro clock
    refine ⟨rfl, rfl, rfl, ?_⟩
    intro n hn
    simp [notify_all_loop] at hn
  | cons c cs ih =>
    intro clock
    obtain ⟨ih1, ih2, ih3, ih4⟩ := ih (clock + 1)
    refine ⟨?_, ?_, ?_, ?_⟩
    · simp only [notify_all_loop, List.map_cons]
      rw [ih1]
    · simp only [notify_all_loop, List.map_cons]
      rw [ih2]
    · simp only [notify_all_loop]
      rw [ih3, List.length_cons]
      omega
    · intro n hn
      simp only [notify_all_loop] at hn
      rcases List.mem_cons.mp hn with rfl | hn
      · exact ⟨rfl, by simp only [List.length_cons]; omega⟩
      · obtain ⟨h1, h2⟩ := ih4 n hn
        exact ⟨h1, by simp only [List.length_cons]; omega⟩

/-- C4: NotifyAll on a user without contacts fails with NotFound and,
the error carrying no store state, writes nothing; on a user with N
contacts it appends exactly N notification records in list order, each
with status "sent" and a snapshot of the contact name and phone at
call time, and answers with the count sent, the name and phone pairs,
and a timestamp taken after every record was written. -/
theorem C4_notify_all (db : DB) (u : String) (req : NotifyAllRequest) :
    (countFor db.trusted_contacts u = 0 →
      notify_all_contacts db u req = .error noContactsError) ∧
    (0 < countFor db.trusted_contacts u →
      ∃ resp db2, notify_all_contacts db u req = .ok (resp, db2) ∧
        db2.trusted_contacts = db.trusted_contacts ∧
        db2.notifications.length =
          db.notifications.length + countFor db.trusted_contacts u ∧
        db2.notifications.take db.notifications.length =
          db.notifications ∧
        (db2.notifications.drop db.notifications.length).map
            (fun n => (n.contact_name, n.contact_phone)) =
          (db.trusted_contacts.filter (fun t => t.user_id == u)).map
            (fun c => (c.name, c.phone)) ∧
        (∀ n ∈ db2.notifications.drop db.notifications.length,
          n.status = "sent" ∧ n.sent_at < resp.sent_at) ∧
        resp.contacts =
          (db.trusted_contacts.filter (fun t => t.user_id == u)).map
            (fun c => (c.name, c.phone)) ∧
        resp.message = "Emergency alert sent to " ++
          toString (countFor db.trusted_contacts u) ++ " contact(s)") := by
  constructor
  · intro h0
    unfold notify_all_contacts
    have hnil : db.trusted_contacts.filter (fun t => t.user_id == u) = [] :=
      List.length_eq_zero.mp h0
    rw [hnil]
    rfl
  · intro hpos
    unfold notify_all_contacts
    have hne : ¬((db.trusted_contacts.filter
        (fun t => t.user_id == u)).isEmpty = true) := by
      intro hcontra
      have hzero : countFor db.trusted_contacts u = 0 := by
        simp [countFor, List.isEmpty_iff.mp hcontra]
      omega
    rw [if_neg hne]
    obtain ⟨hs1, hs2, hs3, hs4⟩ := notify_all_loop_spec u req
      (db.trusted_contacts.filter (fun t => t.user_id == u)) db.clock
    have hlen : (notify_all_loop u req
        (db.trusted_contacts.filter (fun t => t.user_id == u))
        db.clock).1.length = countFor db.trusted_contacts u := by
      have := congrArg List.length hs1
      simpa [countFor] using this
    refine ⟨_, _, rfl, rfl, ?_, ?_, ?_, ?_, ?_, ?_⟩
    · simp only [List.length_append, hlen]
    · exact List.take_left _ _
    · rw [List.drop_left]
      exact hs1
    · intro n hn
      rw [List.drop_left] at hn
      obtain ⟨h1, h2⟩ := hs4 n hn
      refine ⟨h1, ?_⟩
      show n.sent_at < (notify_all_loop u req
        (db.trusted_contacts.filter (fun t => t.user_id == u))
        db.clock).2.2
      rw [hs3]
      exact h2
    · exact hs2
    · show "Emergency alert sent to " ++
          toString (notify_all_loop u req
            (db.trusted_contacts.filter (fun t => t.user_id == u))
            db.clock).2.1.length ++ " contact(s)" = _
      have : (notify_all_loop u req
          (db.trusted_contacts.filter (fun t => t.user_id == u))
          db.clock).2.1.length = countFor db.trusted_contacts u := by
        have := congrArg List.length hs2
        simpa [countFor] using this
      rw [this]

theorem C4_notify_all_witness :
    (notify_all_contacts dbTwo "u2" ⟨"Help", none, none, none⟩ =
      .error noContactsError) ∧
    (∃ resp db2,
      notify_all_contacts dbTwo "u1" ⟨"Help", none, none, none⟩ =
        .ok (resp, db2) ∧
      db2.trusted_contacts = dbTwo.trusted_contacts ∧
      db2.notifications.length =
        dbTwo.notifications.length + countFor dbTwo.trusted_contacts "u1" ∧
      db2.notifications.take dbTwo.notifications.length =
        dbTwo.notifications ∧
      (db2.notifications.drop dbTwo.notifications.length).map
          (fun n => (n.contact_name, n.contact_phone)) =
        (dbTwo.trusted_contacts.filter
          (fun t => t.user_id == "u1")).map (fun c => (c.name, c.phone)) ∧
      (∀ n ∈ db2.notifications.drop dbTwo.notifications.length,
        n.status = "sent" ∧ n.sent_at < resp.sent_at) ∧
      resp.contacts = (dbTwo.trusted_contacts.filter
        (fun t => t.user_id == "u1")).map (fun c => (c.name, c.phone)) ∧
      resp.message = "Emergency alert sent to " ++
        toString (countFor dbTwo.trusted_contacts "u1") ++ " contact(s)") :=
  ⟨(C4_notify_all dbTwo "u2" ⟨"Help", none, none, none⟩).1 (by decide),
   (C4_notify_all dbTwo "u1" ⟨"Help", none, none, none⟩).2 (by decide)⟩

/-- C5: an Update on an existing contact whose partial payload
supplies no fields fails with the BadRequest response "No fields to
update"; the error carries no store state, so the stored contact,
`updated_at` included, is untouched. -/
theorem C5_empty_update (db : DB) (oid : Nat)
    (hex : (db.trusted_contacts.find?
      (fun t => t.id == oid)).isSome = true) :
    update_contact db (RawId.valid oid) ⟨none, none, none⟩ =
      .error emptyUpdateError := by
  obtain ⟨x, hfind⟩ := Option.isSome_iff_exists.mp hex
  unfold update_contact
  simp only
  rw [hfind]
  simp

theorem C5_empty_update_witness :
    update_contact dbTwo (RawId.valid 0) ⟨none, none, none⟩ =
      .error emptyUpdateError :=
  C5_empty_update dbTwo 0 (by decide)

/-- With unique ids, `delete_one` leaves no document with the deleted
id behind. -/
theorem eraseP_id_gone :
    ∀ (l : List Contact) (oid : Nat), (l.map (fun t => t.id)).Nodup →
      ∀ t ∈ l.eraseP (fun t => t.id == oid), t.id ≠ oid := by
  intro l
  induction l with
  | nil => intro oid _ t ht; simp at ht
  | cons a l ih =>
    intro oid hnd t ht
    rw [List.map_cons, List.nodup_cons] at hnd
    by_cases hpa : a.id = oid
    · have hc : (a.id == oid) = true := by simpa using hpa
      simp only [List.eraseP_cons, hc, cond_true] at ht
      intro hcontra
      apply hnd.1
      have : t.id ∈ l.map (fun t => t.id) :=
        List.mem_map_of_mem (fun t => t.id) ht
      rwa [hcontra, ← hpa] at this
    · have hc : (a.id == oid) = false := by simpa using hpa
      simp only [List.eraseP_cons, hc, cond_false] at ht
      rcases List.mem_cons.mp ht with rfl | ht
      · exact hpa
      · exact ih oid hnd.2 t ht

theorem update_contact_found (db : DB) (oid : Nat) (x : Contact)
    (u : TrustedContactUpdate)
    (hfind : db.trusted_contacts.find? (fun t => t.id == oid) = some x) :
    update_contact db (RawId.valid oid) u =
      if (u.name == none && u.phone == none &&
          u.relationship == none) = true then
        .error emptyUpdateError
      else if updateDupFound db oid x u = true then
        .error duplicatePhoneError
      else
        .ok (applyUpdate u db.clock x,
          { db with trusted_contacts := updateFirst (fun t => t.id == oid) (applyUpdate u db.clock) db.trusted_contacts, clock := db.clock + 1 }) := by
  simp only [update_contact]
  rw [hfind]

/-- C6: on an existing contact, the Update duplicate-phone check fires
iff `phone` is among the supplied fields and differs from the stored
phone: an update supplying no phone, or a phone equal to the current
one, never fails with the duplicate error, while an update to a
different phone fails with the duplicate error exactly when another
contact of the same user holds that phone. -/
theorem C6_update_dup_check (db : DB) (oid : Nat) (x : Contact)
    (u : TrustedContactUpdate)
    (hfind : db.trusted_contacts.find? (fun t => t.id == oid) = some x) :
    ((u.phone = none ∨ u.phone = some x.phone) →
      update_contact db (RawId.valid oid) u ≠
        .error duplicatePhoneError) ∧
    (∀ p, u.phone = some p → p ≠ x.phone →
      (update_contact db (RawId.valid oid) u =
          .error duplicatePhoneError ↔
        ∃ t ∈ db.trusted_contacts,
          t.user_id = x.user_id ∧ t.phone = p ∧ t.id ≠ oid)) := by
  constructor
  · intro hp
    rw [update_contact_found db oid x u hfind]
    by_cases hempty :
        (u.name == none && u.phone == none && u.relationship == none) = true
    · rw [if_pos hempty]
      simp [emptyUpdateError, duplicatePhoneError]
    · rw [if_neg hempty]
      have hdf : ¬(updateDupFound db oid x u = true) := by
        unfold updateDupFound
        rcases hp with hp | hp <;> rw [hp] <;> simp
      rw [if_neg hdf]
      simp
  · intro p hp hpne
    rw [update_contact_found db oid x u hfind]
    have hempty : ¬((u.name == none && u.phone == none &&
        u.relationship == none) = true) := by
      rw [hp]; simp
    rw [if_neg hempty]
    unfold updateDupFound
    rw [hp]
    constructor
    · intro hres
      by_cases hdf : (p != x.phone &&
          (db.trusted_contacts.find? (fun t =>
            t.user_id == x.user_id && t.phone == p &&
              t.id != oid)).isSome) = true
      · rw [Bool.and_eq_true] at hdf
        obtain ⟨t, ht, hpred⟩ := List.find?_isSome.mp hdf.2
        simp only [Bool.and_eq_true, beq_iff_eq, bne_iff_ne] at hpred
        exact ⟨t, ht, hpred.1.1, hpred.1.2, hpred.2⟩
      · rw [if_neg hdf] at hres
        simp at hres
    · rintro ⟨t, ht, h1, h2, h3⟩
      have hdf : (p != x.phone &&
          (db.trusted_contacts.find? (fun t =>
            t.user_id == x.user_id && t.phone == p &&
              t.id != oid)).isSome) = true := by
        rw [Bool.and_eq_true]
        refine ⟨by simpa using hpne, ?_⟩
        rw [List.find?_isSome]
        exact ⟨t, ht, by simp [h1, h2, h3]⟩
      rw [if_pos hdf]

theorem C6_update_dup_check_witness :
    (update_contact dbTwo (RawId.valid 0)
        ⟨none, none, some "guardian"⟩ ≠ .error duplicatePhoneError) ∧
    (update_contact dbTwo (RawId.valid 0)
        ⟨none, some "5559876543", none⟩ = .error duplicatePhoneError ↔
      ∃ t ∈ dbTwo.trusted_contacts,
        t.user_id = cMom.user_id ∧ t.phone = "5559876543" ∧ t.id ≠ 0) :=
  ⟨(C6_update_dup_check dbTwo 0 cMom ⟨none, none, some "guardian"⟩
      (by decide)).1 (Or.inl rfl),
   (C6_update_dup_check dbTwo 0 cMom ⟨none, some "5559876543", none⟩
      (by decide)).2 "5559876543" rfl (by decide)⟩

/-- C7: for a well-formed id, Delete of an absent contact fails with
NotFound; Delete of an existing contact succeeds (the route success
status is the body-less 204), removes the document, and a second
Delete of the same id fails with NotFound. -/
theorem C7_delete (db : DB) (oid : Nat) :
    ((∀ t ∈ db.trusted_contacts, t.id ≠ oid) →
      delete_contact db (RawId.valid oid) = .error contactNotFoundError) ∧
    (∀ x ∈ db.trusted_contacts, x.id = oid →
      (db.trusted_contacts.map (fun t => t.id)).Nodup →
      delete_contact_status = 204 ∧
      ∃ db2, delete_contact db (RawId.valid oid) = .ok db2 ∧
        (∀ t ∈ db2.trusted_contacts, t.id ≠ oid) ∧
        delete_contact db2 (RawId.valid oid) =
          .error contactNotFoundError) := by
  constructor
  · intro hnone
    unfold delete_contact
    simp only
    have hfind : db.trusted_contacts.find? (fun t => t.id == oid) = none := by
      rw [List.find?_eq_none]
      intro t ht
      simpa using hnone t ht
    rw [hfind]
  · intro x hx hxid hnd
    refine ⟨rfl, ?_⟩
    have hsome : (db.trusted_contacts.find?
        (fun t => t.id == oid)).isSome = true := by
      rw [List.find?_isSome]
      exact ⟨x, hx, by simp [hxid]⟩
    obtain ⟨y, hfind⟩ := Option.isSome_iff_exists.mp hsome
    have hgone : ∀ t ∈ db.trusted_contacts.eraseP
        (fun t => t.id == oid), t.id ≠ oid :=
      eraseP_id_gone db.trusted_contacts oid hnd
    have hdel : delete_contact db (RawId.valid oid) =
        .ok { db with trusted_contacts :=
          (db.trusted_contacts.eraseP (fun t => t.id == oid)) } := by
      simp only [delete_contact]
      rw [hfind]
    refine ⟨_, hdel, hgone, ?_⟩
    have hfind2 : (db.trusted_contacts.eraseP
        (fun t => t.id == oid)).find? (fun t => t.id == oid) = none := by
      rw [List.find?_eq_none]
      intro t ht
      simpa using hgone t ht
    simp only [delete_contact]
    rw [hfind2]

theorem C7_delete_witness :
    (delete_contact dbTwo (RawId.valid 99) =
      .error contactNotFoundError) ∧
    (delete_contact_status = 204 ∧
      ∃ db2, delete_contact dbTwo (RawId.valid 0) = .ok db2 ∧
        (∀ t ∈ db2.trusted_contacts, t.id ≠ 0) ∧
        delete_contact db2 (RawId.valid 0) =
          .error contactNotFoundError) :=
  ⟨(C7_delete dbTwo 99).1 (by decide),
   (C7_delete dbTwo 0).2 cMom (by decide) (by decide) (by decide)⟩

/-- C8: NotifyOne on an absent id fails with NotFound and, the error
carrying no store state, writes nothing; on an existing contact it
appends exactly one notification record snapshotting the current
name and phone of the contact, answers with that name, phone and send time,
and leaves the contact collection — `is_verified` included — entirely
unchanged. -/
theorem C8_notify_contact (db : DB) (oid : Nat) (msg : String)
    (lat lon : Option Int) (locn : Option String) :
    ((∀ t ∈ db.trusted_contacts, t.id ≠ oid) →
      notify_contact db ⟨RawId.valid oid, msg, lat, lon, locn⟩ =
        .error contactNotFoundError) ∧
    (∀ x, db.trusted_contacts.find? (fun t => t.id == oid) = some x →
      ∃ resp db2,
        notify_contact db ⟨RawId.valid oid, msg, lat, lon, locn⟩ =
          .ok (resp, db2) ∧
        db2.trusted_contacts = db.trusted_contacts ∧
        ∃ n, db2.notifications = db.notifications ++ [n] ∧
          n.contact_name = x.name ∧ n.contact_phone = x.phone ∧
          n.status = "sent" ∧ n.contact_id = oid ∧
          n.user_id = x.user_id ∧ n.message = msg ∧
          resp.contact_name = x.name ∧ resp.contact_phone = x.phone ∧
          resp.sent_at = n.sent_at) := by
  constructor
  · intro hnone
    unfold notify_contact
    simp only
    have hfind : db.trusted_contacts.find? (fun t => t.id == oid) = none := by
      rw [List.find?_eq_none]
      intro t ht
      simpa using hnone t ht
    rw [hfind]
  · intro x hfind
    unfold notify_contact
    simp only
    rw [hfind]
    exact ⟨_, _, rfl, rfl, _, rfl, rfl, rfl, rfl, rfl, rfl, rfl, rfl,
      rfl, rfl⟩

theorem C8_notify_contact_witness :
    (notify_contact dbTwo ⟨RawId.valid 99, "Help", none, none, none⟩ =
      .error contactNotFoundError) ∧
    (∃ resp db2,
      notify_contact dbTwo ⟨RawId.valid 1, "Help", none, none, none⟩ =
        .ok (resp, db2) ∧
      db2.trusted_contacts = dbTwo.trusted_contacts ∧
      ∃ n, db2.notifications = dbTwo.notifications ++ [n] ∧
        n.contact_name = cDad.name ∧ n.contact_phone = cDad.phone ∧
        n.status = "sent" ∧ n.contact_id = 1 ∧
        n.user_id = cDad.user_id ∧ n.message = "Help" ∧
        resp.contact_name = cDad.name ∧ resp.contact_phone = cDad.phone ∧
        resp.sent_at = n.sent_at) :=
  ⟨(C8_notify_contact dbTwo 99 "Help" none none none).1 (by decide),
   (C8_notify_contact dbTwo 1 "Help" none none none).2 cDad (by decide)⟩

/-- Iterate the Verify route `n` times on one id (a failing call
leaves the store untouched). -/
def verifyN (db : DB) (oid : Nat) : Nat → DB
  | 0 => db
  | n + 1 =>
    match verify_contact (verifyN db oid n) (RawId.valid oid) with
    | .ok r => r.2
    | .error _ => verifyN db oid n

theorem verify_contact_found (db : DB) (oid : Nat)
    (hsome : (db.trusted_contacts.find?
      (fun t => t.id == oid)).isSome = true) :
    verify_contact db (RawId.valid oid) =
      .ok (⟨"Test alert sent successfully", true⟩,
        { db with trusted_contacts := updateFirst (fun t => t.id == oid) (fun t => { t with is_verified := true, updated_at := db.clock }) db.trusted_contacts, clock := db.clock + 1 }) := by
  simp only [verify_contact]
  rw [if_pos hsome]

theorem verifyN_find (db : DB) (oid : Nat) (x : Contact)
    (hfind : db.trusted_contacts.find? (fun t => t.id == oid) = some x) :
    ∀ n, ∃ y, (verifyN db oid n).trusted_contacts.find?
        (fun t => t.id == oid) = some y ∧
      y.id = x.id ∧ y.user_id = x.user_id ∧ y.name = x.name ∧
      y.phone = x.phone ∧ y.relationship = x.relationship ∧
      y.created_at = x.created_at ∧ (0 < n → y.is_verified = true) := by
  intro n
  induction n with
  | zero =>
    exact ⟨x, hfind, rfl, rfl, rfl, rfl, rfl, rfl,
      fun h => absurd h (Nat.lt_irrefl 0)⟩
  | succ n ih =>
    obtain ⟨y, hy, h1, h2, h3, h4, h5, h6, _⟩ := ih
    have hsome : ((verifyN db oid n).trusted_contacts.find?
        (fun t => t.id == oid)).isSome = true := by
      rw [hy]; rfl
    have hv := verify_contact_found (verifyN db oid n) oid hsome
    have hstep : verifyN db oid (n + 1) =
        { verifyN db oid n with trusted_contacts := updateFirst (fun t => t.id == oid) (fun t => { t with is_verified := true, updated_at := (verifyN db oid n).clock }) (verifyN db oid n).trusted_contacts, clock := (verifyN db oid n).clock + 1 } := by
      simp only [verifyN, hv]
    have h0 := List.find?_some hy
    let y2 : Contact := { y with is_verified := true, updated_at := (verifyN db oid n).clock }
    refine ⟨y2, ?_, h1, h2, h3, h4, h5, h6, fun _ => rfl⟩
    rw [hstep]
    exact find?_updateFirst hy h0

/-- C9: Verify is idempotent: on an existing contact every Verify
call, the second included, succeeds with the 200 route status and
the response message with `verified = true`; after any positive number
of Verify calls `is_verified` is true while the name, phone,
relationship, `user_id` and `created_at` are exactly as before (only
`is_verified` and `updated_at` are ever written). -/
theorem C9_verify_idempotent (db : DB) (oid : Nat) (x : Contact)
    (hfind : db.trusted_contacts.find? (fun t => t.id == oid) = some x)
    (n : Nat) :
    verify_contact_status = 200 ∧
    (∃ db2, verify_contact (verifyN db oid n) (RawId.valid oid) =
      .ok (⟨"Test alert sent successfully", true⟩, db2)) ∧
    (0 < n → ∃ y, (verifyN db oid n).trusted_contacts.find?
        (fun t => t.id == oid) = some y ∧ y.is_verified = true ∧
      y.name = x.name ∧ y.phone = x.phone ∧
      y.relationship = x.relationship ∧ y.user_id = x.user_id ∧
      y.created_at = x.created_at) := by
  obtain ⟨y, hy, h1, h2, h3, h4, h5, h6, h7⟩ := verifyN_find db oid x hfind n
  refine ⟨rfl, ?_, ?_⟩
  · have hsome : ((verifyN db oid n).trusted_contacts.find?
        (fun t => t.id == oid)).isSome = true := by
      rw [hy]; rfl
    exact ⟨_, verify_contact_found (verifyN db oid n) oid hsome⟩
  · intro hn
    exact ⟨y, hy, h7 hn, h3, h4, h5, h2, h6⟩

theorem C9_verify_idempotent_witness :
    verify_contact_status = 200 ∧
    (∃ db2, verify_contact (verifyN dbTwo 0 1) (RawId.valid 0) =
      .ok (⟨"Test alert sent successfully", true⟩, db2)) ∧
    (0 < 1 → ∃ y, (verifyN dbTwo 0 1).trusted_contacts.find?
        (fun t => t.id == 0) = some y ∧ y.is_verified = true ∧
      y.name = cMom.name ∧ y.phone = cMom.phone ∧
      y.relationship = cMom.relationship ∧ y.user_id = cMom.user_id ∧
      y.created_at = cMom.created_at) :=
  C9_verify_idempotent dbTwo 0 cMom (by decide) 1

/-- C10: a successful Update never changes the `user_id`,
`is_verified` or `created_at`: the update payload admits only name,
phone and relationship, so no Update can move a contact to another
user, change its verification status, or alter its creation time. -/
theorem C10_update_frame (db : DB) (oid : Nat) (u : TrustedContactUpdate)
    (resp : Contact) (db2 : DB)
    (hok : update_contact db (RawId.valid oid) u = .ok (resp, db2)) :
    ∃ x, db.trusted_contacts.find? (fun t => t.id == oid) = some x ∧
      resp.user_id = x.user_id ∧ resp.is_verified = x.is_verified ∧
      resp.created_at = x.created_at ∧ resp.id = x.id ∧
      db2.trusted_contacts.find? (fun t => t.id == oid) = some resp := by
  unfold update_contact at hok
  simp only at hok
  cases hfind : db.trusted_contacts.find? (fun t => t.id == oid) with
  | none => rw [hfind] at hok; simp at hok
  | some existing =>
    rw [hfind] at hok
    simp only at hok
    split at hok
    case isTrue => exact absurd hok (by simp)
    case isFalse hempty =>
      split at hok
      case isTrue => exact absurd hok (by simp)
      case isFalse hdupF =>
        simp only [Except.ok.injEq, Prod.mk.injEq] at hok
        obtain ⟨hresp, hdb⟩ := hok
        subst hdb
        subst hresp
        refine ⟨existing, rfl, rfl, rfl, rfl, rfl, ?_⟩
        have h0 := List.find?_some hfind
        exact find?_updateFirst hfind h0

theorem C10_update_frame_witness :
    ∃ x, dbTwo.trusted_contacts.find? (fun t => t.id == 0) = some x ∧
      (applyUpdate ⟨some "Mother", none, none⟩ 2 cMom).user_id = x.user_id ∧
      (applyUpdate ⟨some "Mother", none, none⟩ 2 cMom).is_verified =
        x.is_verified ∧
      (applyUpdate ⟨some "Mother", none, none⟩ 2 cMom).created_at =
        x.created_at ∧
      (applyUpdate ⟨some "Mother", none, none⟩ 2 cMom).id = x.id ∧
      (updateFirst (fun t => t.id == 0)
          (applyUpdate ⟨some "Mother", none, none⟩ 2)
          dbTwo.trusted_contacts).find? (fun t => t.id == 0) =
        some (applyUpdate ⟨some "Mother", none, none⟩ 2 cMom) :=
  C10_update_frame dbTwo 0 ⟨some "Mother", none, none⟩
    (applyUpdate ⟨some "Mother", none, none⟩ 2 cMom)
    { dbTwo with trusted_contacts := updateFirst (fun t => t.id == 0) (applyUpdate ⟨some "Mother", none, none⟩ 2) dbTwo.trusted_contacts, clock := 3 }
    rfl

end Wsa
